import Mathlib

/-!
Shallow embedding of the langgraph-with-mcp repository.

The repository defines a four-operation arithmetic tool `calculate` three
times (src/main_tools.py, src/main_normal.py, src/mcp_server.py) and an MCP
client session manager `MCPClientManager` (src/main_mcp_async.py,
src/main_mcp.py).  Python floats are modelled as rationals, Python string
interpolation of a number as a fixed rendering function `pyStr`, and a Python
function that can raise as a function into `Except PyExc`.
-/

/-- Python numbers (`float` arguments of the tools) are modelled as
rationals; the arithmetic structure of the code does not depend on binary
rounding. -/
abbrev PyFloat := ℚ

/-- The rendering of a number inside a Python f-string such as
`f"Result: {a} ..."`.  Both the embedded code and the statements about it
use this one rendering. -/
def pyStr (x : PyFloat) : String := toString x

/-- The Python exceptions the embedded code can raise. -/
inductive PyExc
  | zeroDivisionError
  | runtimeError (msg : String)
  | connectionError
  deriving DecidableEq, Repr

namespace Operator

/-- `operator.add`. -/
def add (a b : PyFloat) : Except PyExc PyFloat := Except.ok (a + b)

/-- `operator.sub`. -/
def sub (a b : PyFloat) : Except PyExc PyFloat := Except.ok (a - b)

/-- `operator.mul`. -/
def mul (a b : PyFloat) : Except PyExc PyFloat := Except.ok (a * b)

/-- `operator.truediv`: raises `ZeroDivisionError` when the divisor is 0. -/
def truediv (a b : PyFloat) : Except PyExc PyFloat :=
  if b = 0 then Except.error PyExc.zeroDivisionError else Except.ok (a / b)

end Operator

namespace MainTools

/-- The `ops` dict of src/main_tools.py lines 25-30: a finite map from the
operation name to the operator function and its display symbol. -/
def ops (operation : String) :
    Option ((PyFloat → PyFloat → Except PyExc PyFloat) × String) :=
  if operation = "add" then some (Operator.add, "+")
  else if operation = "subtract" then some (Operator.sub, "-")
  else if operation = "multiply" then some (Operator.mul, "*")
  else if operation = "divide" then some (Operator.truediv, "/")
  else none

/-- `calculate` of src/main_tools.py lines 15-41: unknown-operation check,
then the divide-by-zero guard, then the operator application and the
f-string result. -/
def calculate (operation : String) (a b : PyFloat) : Except PyExc String :=
  match ops operation with
  | none => Except.ok ("Error: Unknown operation '" ++ operation ++ "'")
  | some (func, symbol) =>
    if operation = "divide" ∧ b = 0 then Except.ok "Error: Division by zero"
    else do
      let result ← func a b
      Except.ok ("Result: " ++ pyStr a ++ " " ++ symbol ++ " " ++ pyStr b ++
        " = " ++ pyStr result)

end MainTools

namespace MainNormal

/-- The `ops` dict of src/main_normal.py lines 22-27. -/
def ops (operation : String) :
    Option ((PyFloat → PyFloat → Except PyExc PyFloat) × String) :=
  if operation = "add" then some (Operator.add, "+")
  else if operation = "subtract" then some (Operator.sub, "-")
  else if operation = "multiply" then some (Operator.mul, "*")
  else if operation = "divide" then some (Operator.truediv, "/")
  else none

/-- `calculate` of src/main_normal.py lines 12-38. -/
def calculate (operation : String) (a b : PyFloat) : Except PyExc String :=
  match ops operation with
  | none => Except.ok ("Error: Unknown operation '" ++ operation ++ "'")
  | some (func, symbol) =>
    if operation = "divide" ∧ b = 0 then Except.ok "Error: Division by zero"
    else do
      let result ← func a b
      Except.ok ("Result: " ++ pyStr a ++ " " ++ symbol ++ " " ++ pyStr b ++
        " = " ++ pyStr result)

end MainNormal

namespace McpServer

/-- The `ops` dict of src/mcp_server.py lines 19-24. -/
def ops (operation : String) :
    Option ((PyFloat → PyFloat → Except PyExc PyFloat) × String) :=
  if operation = "add" then some (Operator.add, "+")
  else if operation = "subtract" then some (Operator.sub, "-")
  else if operation = "multiply" then some (Operator.mul, "*")
  else if operation = "divide" then some (Operator.truediv, "/")
  else none

/-- `calculate` of src/mcp_server.py lines 9-35 (the MCP server tool; its body
is textually identical to the two local tools). -/
def calculate (operation : String) (a b : PyFloat) : Except PyExc String :=
  match ops operation with
  | none => Except.ok ("Error: Unknown operation '" ++ operation ++ "'")
  | some (func, symbol) =>
    if operation = "divide" ∧ b = 0 then Except.ok "Error: Division by zero"
    else do
      let result ← func a b
      Except.ok ("Result: " ++ pyStr a ++ " " ++ symbol ++ " " ++ pyStr b ++
        " = " ++ pyStr result)

end McpServer

/-- The operator symbol the spec associates with each operation. -/
def specSymbol (operation : String) : String :=
  if operation = "add" then "+"
  else if operation = "subtract" then "-"
  else if operation = "multiply" then "*"
  else "/"

/-- The correctly computed value the spec associates with each operation. -/
def specValue (operation : String) (a b : PyFloat) : PyFloat :=
  if operation = "add" then a + b
  else if operation = "subtract" then a - b
  else if operation = "multiply" then a * b
  else a / b

namespace MainTools

lemma calculate_add_eq (a b : PyFloat) : calculate "add" a b =
    Except.ok ("Result: " ++ pyStr a ++ " " ++ "+" ++ " " ++ pyStr b ++ " = " ++
      pyStr (a + b)) := rfl

lemma calculate_subtract_eq (a b : PyFloat) : calculate "subtract" a b =
    Except.ok ("Result: " ++ pyStr a ++ " " ++ "-" ++ " " ++ pyStr b ++ " = " ++
      pyStr (a - b)) := rfl

lemma calculate_multiply_eq (a b : PyFloat) : calculate "multiply" a b =
    Except.ok ("Result: " ++ pyStr a ++ " " ++ "*" ++ " " ++ pyStr b ++ " = " ++
      pyStr (a * b)) := rfl

lemma calculate_divide_eq (a b : PyFloat) (hb : b ≠ 0) : calculate "divide" a b =
    Except.ok ("Result: " ++ pyStr a ++ " " ++ "/" ++ " " ++ pyStr b ++ " = " ++
      pyStr (a / b)) := by
  simp [calculate, ops, Operator.truediv, hb]
  rfl

lemma calculate_divide_zero_eq (a : PyFloat) :
    calculate "divide" a 0 = Except.ok "Error: Division by zero" := rfl

lemma calculate_unknown_eq (operation : String) (a b : PyFloat)
    (h1 : operation ≠ "add") (h2 : operation ≠ "subtract")
    (h3 : operation ≠ "multiply") (h4 : operation ≠ "divide") :
    calculate operation a b =
      Except.ok ("Error: Unknown operation '" ++ operation ++ "'") := by
  simp [calculate, ops, h1, h2, h3, h4]

lemma calculate_total (operation : String) (a b : PyFloat) :
    ∃ s, calculate operation a b = Except.ok s := by
  by_cases h1 : operation = "add"
  · exact ⟨_, h1 ▸ calculate_add_eq a b⟩
  by_cases h2 : operation = "subtract"
  · exact ⟨_, h2 ▸ calculate_subtract_eq a b⟩
  by_cases h3 : operation = "multiply"
  · exact ⟨_, h3 ▸ calculate_multiply_eq a b⟩
  by_cases h4 : operation = "divide"
  · subst h4
    by_cases hb : b = 0
    · exact ⟨_, hb ▸ calculate_divide_zero_eq a⟩
    · exact ⟨_, calculate_divide_eq a b hb⟩
  · exact ⟨_, calculate_unknown_eq operation a b h1 h2 h3 h4⟩

end MainTools

/-- C1: for every operation in the four-element set and all numbers a, b with
operation ≠ "divide" or b ≠ 0, the calculate tool returns exactly the string
"Result: {a} {symbol} {b} = {result}" with the matching operator symbol and
the correctly computed value. -/
theorem calculate_valid_returns_result (operation : String) (a b : PyFloat)
    (hop : operation ∈ ["add", "subtract", "multiply", "divide"])
    (hdiv : operation ≠ "divide" ∨ b ≠ 0) :
    MainTools.calculate operation a b =
      Except.ok ("Result: " ++ pyStr a ++ " " ++ specSymbol operation ++ " " ++
        pyStr b ++ " = " ++ pyStr (specValue operation a b)) := by
  simp only [List.mem_cons, List.mem_singleton, List.not_mem_nil, or_false] at hop
  rcases hop with h | h | h | h <;> subst h
  · exact MainTools.calculate_add_eq a b
  · exact MainTools.calculate_subtract_eq a b
  · exact MainTools.calculate_multiply_eq a b
  · rcases hdiv with h | h
    · exact absurd rfl h
    · exact MainTools.calculate_divide_eq a b h

theorem calculate_valid_returns_result_witness :
    MainTools.calculate "add" (3/2) 3 =
      Except.ok ("Result: " ++ pyStr (3/2) ++ " " ++ specSymbol "add" ++ " " ++
        pyStr 3 ++ " = " ++ pyStr (specValue "add" (3/2) 3)) :=
  calculate_valid_returns_result "add" (3/2) 3 (by decide) (Or.inl (by decide))

/-- C2: for every number a, calculate "divide" a 0 returns exactly the string
"Error: Division by zero"; no exception is raised and no other text is
produced. -/
theorem calculate_divide_by_zero_message (a : PyFloat) :
    MainTools.calculate "divide" a 0 = Except.ok "Error: Division by zero" := rfl

/-- C3: for every operation string outside the four known ones and all
numbers a, b, the calculate tool returns exactly the string
"Error: Unknown operation '{operation}'" with the operation interpolated. -/
theorem calculate_unknown_operation_message (operation : String) (a b : PyFloat)
    (h : operation ∉ ["add", "subtract", "multiply", "divide"]) :
    MainTools.calculate operation a b =
      Except.ok ("Error: Unknown operation '" ++ operation ++ "'") := by
  simp only [List.mem_cons, List.mem_singleton, List.not_mem_nil, or_false,
    not_or] at h
  exact MainTools.calculate_unknown_eq operation a b h.1 h.2.1 h.2.2.1 h.2.2.2

theorem calculate_unknown_operation_message_witness :
    MainTools.calculate "foo" 1 2 =
      Except.ok ("Error: Unknown operation '" ++ "foo" ++ "'") :=
  calculate_unknown_operation_message "foo" 1 2 (by decide)

/-- C8: the calculate tool is total on its expected domain-error inputs: it
never returns a raised exception, and both the unknown-operation case and the
divide-by-zero case come back as ordinary strings beginning "Error: ", so the
exceptional branch of the underlying division is unreachable. -/
theorem calculate_never_raises (operation : String) (a b : PyFloat) :
    (∀ e, MainTools.calculate operation a b ≠ Except.error e) ∧
    (operation ∉ ["add", "subtract", "multiply", "divide"] →
      ∃ r, MainTools.calculate operation a b = Except.ok ("Error: " ++ r)) ∧
    (operation = "divide" → b = 0 →
      ∃ r, MainTools.calculate operation a b = Except.ok ("Error: " ++ r)) := by
  obtain ⟨s, hs⟩ := MainTools.calculate_total operation a b
  refine ⟨fun e hcon => by rw [hs] at hcon; exact Except.noConfusion hcon, ?_, ?_⟩
  · intro h
    simp only [List.mem_cons, List.mem_singleton, List.not_mem_nil, or_false,
      not_or] at h
    refine ⟨"Unknown operation '" ++ operation ++ "'", ?_⟩
    rw [MainTools.calculate_unknown_eq operation a b h.1 h.2.1 h.2.2.1 h.2.2.2]
    simp only [show ("Error: Unknown operation '" : String) =
      "Error: " ++ "Unknown operation '" from rfl, String.append_assoc]
  · intro hop hb
    subst hop; subst hb
    exact ⟨"Division by zero", MainTools.calculate_divide_zero_eq a⟩

/-- C9: the unknown-operation check takes precedence over the zero-divisor
check: for every operation outside the four known ones and every a,
calculate operation a 0 returns the unknown-operation message and never
"Error: Division by zero". -/
theorem calculate_unknown_precedes_divide_zero (operation : String) (a : PyFloat)
    (h : operation ∉ ["add", "subtract", "multiply", "divide"]) :
    MainTools.calculate operation a 0 =
      Except.ok ("Error: Unknown operation '" ++ operation ++ "'") ∧
    MainTools.calculate operation a 0 ≠ Except.ok "Error: Division by zero" := by
  simp only [List.mem_cons, List.mem_singleton, List.not_mem_nil, or_false,
    not_or] at h
  have heq := MainTools.calculate_unknown_eq operation a 0 h.1 h.2.1 h.2.2.1 h.2.2.2
  refine ⟨heq, fun hcon => ?_⟩
  rw [heq] at hcon
  have hstr : "Error: Unknown operation '" ++ operation ++ "'" =
      "Error: Division by zero" := by
    injection hcon
  have hlen := congrArg String.length hstr
  rw [String.length_append, String.length_append] at hlen
  have h26 : ("Error: Unknown operation '" : String).length = 26 := rfl
  have h1 : ("'" : String).length = 1 := rfl
  have h23 : ("Error: Division by zero" : String).length = 23 := rfl
  omega

theorem calculate_unknown_precedes_divide_zero_witness :
    MainTools.calculate "divide_by" 7 0 =
      Except.ok ("Error: Unknown operation '" ++ "divide_by" ++ "'") ∧
    MainTools.calculate "divide_by" 7 0 ≠ Except.ok "Error: Division by zero" :=
  calculate_unknown_precedes_divide_zero "divide_by" 7 (by decide)

/-- C10: the three definitions of the calculate tool — the local LangChain
tool in main_tools.py, the local tool in main_normal.py, and the MCP server
tool in mcp_server.py — are extensionally equal. -/
theorem calculate_three_definitions_agree (operation : String) (a b : PyFloat) :
    MainTools.calculate operation a b = MainNormal.calculate operation a b ∧
    MainNormal.calculate operation a b = McpServer.calculate operation a b :=
  ⟨rfl, rfl⟩

/-- A content item of an MCP tool-call response: `mcp.types.TextContent`
carries `.text`; any other content kind is kept only through its `str(item)`
rendering, which is all the client code uses of it. -/
inductive ContentItem
  | textContent (text : String)
  | other (stringified : String)
  deriving DecidableEq, Repr

/-- The inline conditional of src/main_mcp_async.py line 64:
`item.text if isinstance(item, TextContent) else str(item)`. -/
def itemText : ContentItem → String
  | ContentItem.textContent text => text
  | ContentItem.other stringified => stringified

/-- The structured response of `session.call_tool`: an ordered sequence of
content items. -/
structure CallToolResult where
  content : List ContentItem
  deriving DecidableEq, Repr

/-- An `mcp.ClientSession` object as the manager sees it: the flag records
whether its `async with` scope has already exited (the object itself stays
reachable through `self.session` afterwards). -/
structure ClientSession where
  closed : Bool
  deriving DecidableEq, Repr

/-- `MCPClientManager` of src/main_mcp_async.py lines 38-67 (and, for
`connect`, src/main_mcp.py lines 38-52): `__init__` stores the base URL and
sets `self.session = None`. -/
structure MCPClientManager where
  base_url : String
  session : Option ClientSession
  deriving DecidableEq, Repr

/-- `MCPClientManager.__init__`. -/
def MCPClientManager.init (base_url : String) : MCPClientManager :=
  { base_url := base_url, session := none }

/-- Entering the `connect` async context manager (src/main_mcp_async.py
lines 44-52): the Streamable HTTP transport is opened, the `ClientSession`
is created and initialized, and `self.session = session` is assigned before
the manager yields the session to the caller. -/
def MCPClientManager.connectEnter (m : MCPClientManager) : MCPClientManager :=
  { m with session := some { closed := false } }

/-- Leaving the `connect` scope: the nested `async with` blocks close the
session and the transport.  The code never resets `self.session`, so the
attribute keeps referring to the now-closed session object. -/
def MCPClientManager.connectExit (m : MCPClientManager) : MCPClientManager :=
  { m with session := m.session.map (fun s => { s with closed := true }) }

/-- How the transport resolves one `session.call_tool` round trip: either the
structured response arrives, or the underlying transport fails
(a `ConnectionError`). -/
inductive RemoteOutcome
  | ok (result : CallToolResult)
  | connectionError
  deriving DecidableEq, Repr

/-- `MCPClientManager.call_tool` of src/main_mcp_async.py lines 54-67.  The
triple returned is (the value or raised exception, the manager afterwards,
whether `await self.session.call_tool(...)` was reached).  The code guards
only on `if not self.session` — a raised transport error is not caught and
no field of the manager is updated on any path. -/
def MCPClientManager.call_tool (m : MCPClientManager) (remote : RemoteOutcome) :
    Except PyExc String × MCPClientManager × Bool :=
  match m.session with
  | none => (Except.error (PyExc.runtimeError "MCP session not initialized"), m, false)
  | some _ =>
    match remote with
    | RemoteOutcome.connectionError => (Except.error PyExc.connectionError, m, true)
    | RemoteOutcome.ok result =>
      (Except.ok (if result.content ≠ [] then
          String.intercalate "\n" (result.content.map itemText)
        else ""), m, true)

/-- The operations the client code performs against the MCP server, named in
source order. -/
inductive SessionOp
  | openTransport
  | initializeHandshake
  | storeSession
  | listTools
  | runGraph
  deriving DecidableEq, Repr

/-- What `MCPClientManager.connect` performs up to and including its yield
(src/main_mcp_async.py lines 44-52, src/main_mcp.py lines 43-52): open the
transport, initialize the session, store it.  No tool-catalog query appears
in the method. -/
def connectOps : List SessionOp :=
  [SessionOp.openTransport, SessionOp.initializeHandshake, SessionOp.storeSession]

/-- What `main` performs inside the connect scope, in source order: in
src/main_mcp_async.py it calls `session.list_tools()` first and only then
builds and runs the graph; in src/main_mcp.py it calls
`load_mcp_tools(mcp_manager.session)` first and then runs the graph. -/
def mainConnectedOps : List SessionOp :=
  [SessionOp.listTools, SessionOp.runGraph]

/-- C5 (confirmed): for every remote tool-call response received in a state
with a session, call_tool returns the newline-joined concatenation of the
text of every textual item and the stringification of every non-textual
item, in response order (the empty response gives the empty string, which
equals the join over no items). -/
theorem call_tool_joins_text_items (m : MCPClientManager) (s : ClientSession)
    (result : CallToolResult) (h : m.session = some s) :
    (m.call_tool (RemoteOutcome.ok result)).1 =
      Except.ok (String.intercalate "\n" (result.content.map itemText)) := by
  simp only [MCPClientManager.call_tool, h]
  cases hc : result.content with
  | nil =>
      simp [hc]
      rfl
  | cons x xs => simp [hc]

theorem call_tool_joins_text_items_witness :
    ((MCPClientManager.mk "http://localhost:8000/mcp"
        (some (ClientSession.mk false))).call_tool
      (RemoteOutcome.ok (CallToolResult.mk
        [ContentItem.textContent "Result: 1.5 + 3 = 4.5", ContentItem.other "meta"]))).1 =
      Except.ok (String.intercalate "\n"
        ([ContentItem.textContent "Result: 1.5 + 3 = 4.5",
          ContentItem.other "meta"].map itemText)) :=
  call_tool_joins_text_items _ (ClientSession.mk false) _ rfl

/-- C6 (amended): call_tool fails with the not-initialized RuntimeError and
performs no remote call exactly when `self.session` is None, i.e. when the
manager was never connected; the guard does not fire after the connect scope
has exited, because `self.session` still references the closed session. -/
theorem call_tool_requires_session (m : MCPClientManager) (remote : RemoteOutcome)
    (h : m.session = none) :
    m.call_tool remote =
      (Except.error (PyExc.runtimeError "MCP session not initialized"), m, false) := by
  simp [MCPClientManager.call_tool, h]

theorem call_tool_requires_session_witness :
    (MCPClientManager.init "http://localhost:8000/mcp").call_tool
        RemoteOutcome.connectionError =
      (Except.error (PyExc.runtimeError "MCP session not initialized"),
        MCPClientManager.init "http://localhost:8000/mcp", false) :=
  call_tool_requires_session _ _ rfl

/-- C6 counterexample: after the connect scope has exited (the manager is no
longer Connected), call_tool does not fail with a not-connected error — it
reaches `self.session.call_tool` (a remote attempt) and even returns a
result. -/
theorem call_tool_after_disconnect_attempts_network :
    ((((MCPClientManager.init "http://localhost:8000/mcp").connectEnter).connectExit).call_tool
        (RemoteOutcome.ok (CallToolResult.mk [ContentItem.textContent "ok"]))).2.2 = true ∧
    ((((MCPClientManager.init "http://localhost:8000/mcp").connectEnter).connectExit).call_tool
        (RemoteOutcome.ok (CallToolResult.mk [ContentItem.textContent "ok"]))).1 =
      Except.ok "ok" :=
  ⟨rfl, rfl⟩

/-- C4 (amended): a ConnectionError during call_tool on a manager holding a
session propagates to the caller and leaves the manager unchanged — there is
no Failed state — so every subsequent invocation on the same manager reaches
the remote call again instead of failing fast. -/
theorem call_tool_connection_error_leaves_state (m : MCPClientManager)
    (s : ClientSession) (h : m.session = some s) :
    (m.call_tool RemoteOutcome.connectionError).1 = Except.error PyExc.connectionError ∧
    (m.call_tool RemoteOutcome.connectionError).2.1 = m ∧
    ∀ remote, ((m.call_tool RemoteOutcome.connectionError).2.1.call_tool remote).2.2 = true := by
  have hstate : (m.call_tool RemoteOutcome.connectionError).2.1 = m := by
    simp [MCPClientManager.call_tool, h]
  refine ⟨by simp [MCPClientManager.call_tool, h], hstate, fun remote => ?_⟩
  rw [hstate]
  cases remote <;> simp [MCPClientManager.call_tool, h]

theorem call_tool_connection_error_leaves_state_witness :
    (((MCPClientManager.init "http://localhost:8000/mcp").connectEnter).call_tool
        RemoteOutcome.connectionError).1 = Except.error PyExc.connectionError ∧
    (((MCPClientManager.init "http://localhost:8000/mcp").connectEnter).call_tool
        RemoteOutcome.connectionError).2.1 =
      (MCPClientManager.init "http://localhost:8000/mcp").connectEnter ∧
    ∀ remote, ((((MCPClientManager.init "http://localhost:8000/mcp").connectEnter).call_tool
        RemoteOutcome.connectionError).2.1.call_tool remote).2.2 = true :=
  call_tool_connection_error_leaves_state _ (ClientSession.mk false) rfl

/-- C4 counterexample: after a ConnectionError during call_tool on a
Connected manager, a second invocation on the same manager instance does not
fail immediately — it reaches the remote call and returns its result. -/
theorem call_tool_after_connection_error_retries :
    ((((MCPClientManager.init "http://localhost:8000/mcp").connectEnter).call_tool
        RemoteOutcome.connectionError).2.1.call_tool
        (RemoteOutcome.ok (CallToolResult.mk [ContentItem.textContent "later"]))).2.2 = true ∧
    ((((MCPClientManager.init "http://localhost:8000/mcp").connectEnter).call_tool
        RemoteOutcome.connectionError).2.1.call_tool
        (RemoteOutcome.ok (CallToolResult.mk [ContentItem.textContent "later"]))).1 =
      Except.ok "later" :=
  ⟨rfl, rfl⟩

/-- C7 (amended): on successful connect the manager stores the freshly
initialized session (Connected); connect itself performs no tool-catalog
query — the caller fetches the catalog as its first action after connect
yields, before running the graph. -/
theorem connect_stores_session_catalog_fetched_by_caller (m : MCPClientManager) :
    (m.connectEnter).session = some (ClientSession.mk false) ∧
    SessionOp.listTools ∉ connectOps ∧
    mainConnectedOps.head? = some SessionOp.listTools :=
  ⟨rfl, by decide, rfl⟩

/-- C7 counterexample: fetching the remote tool catalog is not part of
connect itself — no list-tools operation occurs in the connect method. -/
theorem connect_does_not_fetch_catalog : SessionOp.listTools ∉ connectOps := by
  decide
